import Mathlib

/-
Shallow embedding of the multi-agent waste-collection simulation
(src/agents.py, src/pairing_logic.py, src/_solve_deadlock.py,
src/donor_logic.py, src/communication/...), together with theorems about
its messaging substrate, collective-memory replication, negotiation
protocols and deliberation procedure.

Modelling conventions:
* grid positions (Python `(x, y)` int tuples) are `Int × Int`;
* Python `set` replicas are modelled as duplicate-free lists; the list
  order stands for the set's (implementation-defined) iteration order;
* Python's `min(xs, key=k)` returns the first element attaining the
  minimal key; `pyMin` reproduces that;
* Python's `sorted(xs, key=k)` is a stable sort; `sortByKey` is a stable
  insertion sort reproducing it;
* a Python function that can raise (`assert`, `pop` from an empty list)
  is embedded with an `Option` result, `none` being the raising path.
-/

/-- A grid position `(x, y)`, as the Python code's int pairs. -/
abbrev Pos := Int × Int

/-- Manhattan distance `abs(p1[0]-p2[0]) + abs(p1[1]-p2[1])`, as computed by
`calculate_distance` in `pairing_logic.py` / `donor_logic.py` and inline in
`_solve_deadlock.py` and `agents.py`. -/
def manhattan (p q : Pos) : Nat :=
  (p.1 - q.1).natAbs + (p.2 - q.2).natAbs

/-- A waste item (`objects.py`, class `Waste`): a unique id and a color
(`waste_color ∈ {0, 1, 2}` for raw items, `zone_type + 1` after transform). -/
structure Waste where
  uid : Nat
  color : Nat
deriving DecidableEq, Repr

/-- Python's `min(xs, key=key)`: the first element with minimal key;
`none` on the empty list (where Python raises unless a default is given). -/
def pyMin {α : Type} (key : α → Nat) : List α → Option α
  | [] => none
  | x :: xs => some (xs.foldl (fun best y => if key y < key best then y else best) x)

/-- The fold underlying `pyMin` yields an element of `b :: xs`. -/
theorem foldlMin_mem {α : Type} (key : α → Nat) (xs : List α) (b : α) :
    xs.foldl (fun best y => if key y < key best then y else best) b ∈ b :: xs := by
  induction xs generalizing b with
  | nil => simp [List.foldl]
  | cons x xs ih =>
    simp only [List.foldl]
    by_cases h : key x < key b
    · simp only [if_pos h]
      rcases List.mem_cons.mp (ih x) with h1 | h1
      · rw [h1]; exact List.mem_cons_of_mem _ (List.mem_cons_self _ _)
      · exact List.mem_cons_of_mem _ (List.mem_cons_of_mem _ h1)
    · simp only [if_neg h]
      rcases List.mem_cons.mp (ih b) with h1 | h1
      · rw [h1]; exact List.mem_cons_self _ _
      · exact List.mem_cons_of_mem _ (List.mem_cons_of_mem _ h1)

/-- The fold underlying `pyMin` minimizes the key over `b :: xs`. -/
theorem foldlMin_le {α : Type} (key : α → Nat) (xs : List α) (b : α) :
    ∀ x ∈ b :: xs,
      key (xs.foldl (fun best y => if key y < key best then y else best) b) ≤ key x := by
  induction xs generalizing b with
  | nil =>
    intro x hx
    rw [List.mem_singleton] at hx
    rw [hx]
    simp [List.foldl]
  | cons y ys ih =>
    intro x hx
    simp only [List.foldl]
    by_cases h : key y < key b
    · simp only [if_pos h]
      rcases List.mem_cons.mp hx with h1 | h1
      · rw [h1]
        exact le_trans (ih y y (List.mem_cons_self _ _)) (le_of_lt h)
      · exact ih y x h1
    · simp only [if_neg h]
      rcases List.mem_cons.mp hx with h1 | h1
      · rw [h1]; exact ih b b (List.mem_cons_self _ _)
      · rcases List.mem_cons.mp h1 with h2 | h2
        · rw [h2]
          exact le_trans (ih b b (List.mem_cons_self _ _)) (le_of_not_lt h)
        · exact ih b x (List.mem_cons_of_mem _ h2)

/-- `pyMin` returns an element of the list. -/
theorem pyMin_mem {α : Type} (key : α → Nat) (xs : List α) (m : α)
    (h : pyMin key xs = some m) : m ∈ xs := by
  cases xs with
  | nil => simp [pyMin] at h
  | cons x xs =>
    simp only [pyMin, Option.some.injEq] at h
    subst h
    exact foldlMin_mem key xs x

/-- `pyMin` minimizes the key. -/
theorem pyMin_le {α : Type} (key : α → Nat) (xs : List α) (m : α)
    (h : pyMin key xs = some m) : ∀ x ∈ xs, key m ≤ key x := by
  cases xs with
  | nil => simp [pyMin] at h
  | cons x xs =>
    simp only [pyMin, Option.some.injEq] at h
    subst h
    exact foldlMin_le key xs x

/-- Python's stable `sorted(xs, key=key)`: insert `x` after all elements with
a key `≤ key x`. -/
def insertSorted {α : Type} (key : α → Nat) (x : α) : List α → List α
  | [] => [x]
  | y :: ys => if key x < key y then x :: y :: ys else y :: insertSorted key x ys

/-- Python's `sorted(xs, key=key)` (stable insertion sort). -/
def sortByKey {α : Type} (key : α → Nat) : List α → List α
  | [] => []
  | x :: xs => insertSorted key x (sortByKey key xs)

theorem mem_insertSorted {α : Type} (key : α → Nat) (x a : α) (l : List α) :
    a ∈ insertSorted key x l ↔ a = x ∨ a ∈ l := by
  induction l with
  | nil => simp [insertSorted]
  | cons y ys ih =>
    simp only [insertSorted]
    by_cases h : key x < key y
    · simp [h]
    · simp only [h, if_neg, not_false_iff, List.mem_cons, ih]
      tauto

theorem mem_sortByKey {α : Type} (key : α → Nat) (a : α) (l : List α) :
    a ∈ sortByKey key l ↔ a ∈ l := by
  induction l with
  | nil => simp [sortByKey]
  | cons x xs ih =>
    simp only [sortByKey, mem_insertSorted, List.mem_cons, ih]

/-- The head of the sorted list minimizes the key over the original list. -/
theorem sortByKey_head_min {α : Type} (key : α → Nat) (l : List α) (c : α)
    (rest : List α) (h : sortByKey key l = c :: rest) :
    ∀ x ∈ l, key c ≤ key x := by
  induction l generalizing c rest with
  | nil => simp [sortByKey] at h
  | cons y ys ih =>
    simp only [sortByKey] at h
    cases hs : sortByKey key ys with
    | nil =>
      rw [hs] at h
      simp only [insertSorted, List.cons.injEq] at h
      intro x hx
      rcases List.mem_cons.mp hx with h1 | h1
      · subst h1; rw [h.1]
      · exfalso
        have : x ∈ sortByKey key ys := (mem_sortByKey key x ys).mpr h1
        rw [hs] at this; simp at this
    | cons c' r' =>
      rw [hs] at h
      simp only [insertSorted] at h
      have hmin : ∀ x ∈ ys, key c' ≤ key x := ih c' r' hs
      by_cases hlt : key y < key c'
      · simp only [hlt, if_pos, List.cons.injEq] at h
        intro x hx
        rcases List.mem_cons.mp hx with h1 | h1
        · subst h1; rw [← h.1]
        · rw [← h.1]; exact le_trans (le_of_lt hlt) (hmin x h1)
      · simp only [hlt, if_neg, not_false_iff, List.cons.injEq] at h
        intro x hx
        rcases List.mem_cons.mp hx with h1 | h1
        · subst h1; rw [← h.1]; exact le_of_not_lt hlt
        · rw [← h.1]; exact hmin x h1

theorem sortByKey_ne_nil {α : Type} (key : α → Nat) (x : α) (xs : List α) :
    sortByKey key (x :: xs) ≠ [] := by
  intro h
  have : x ∈ sortByKey key (x :: xs) := (mem_sortByKey key x _).mpr (by simp)
  rw [h] at this
  simp at this

/-- The performative names that appear anywhere in the code base: the ten
members declared by the `MessagePerformative` enum
(`communication/message/message_performative.py`) together with the six
pairing / donation names that `pairing_logic.py` and `donor_logic.py`
reference on that enum. -/
inductive Performative where
  | PROPOSE
  | ACCEPT
  | COMMIT
  | ASK_WHY
  | ARGUE
  | QUERY_REF
  | INFORM_WASTE_POS_ADD_REF
  | INFORM_WASTE_POS_REMOVE_REF
  | PROPOSE_WASTE
  | ACCEPT_WASTE
  | REQUEST_PAIRING
  | ACCEPT_PAIRING
  | REJECT_PAIRING
  | REQUEST_DONATION
  | ACCEPT_DONATION
  | REJECT_DONATION
deriving DecidableEq, Repr

/-- The members actually declared by the `MessagePerformative` enum in
`communication/message/message_performative.py` (lines 11-21), in source
order. -/
def messagePerformativeMembers : List Performative :=
  [.PROPOSE, .ACCEPT, .COMMIT, .ASK_WHY, .ARGUE, .QUERY_REF,
   .INFORM_WASTE_POS_ADD_REF, .INFORM_WASTE_POS_REMOVE_REF,
   .PROPOSE_WASTE, .ACCEPT_WASTE]

/-- The numeric value each declared enum member carries in
`message_performative.py`; `none` for a name the enum does not declare. -/
def performativeValue : Performative → Option Nat
  | .PROPOSE => some 101
  | .ACCEPT => some 102
  | .COMMIT => some 103
  | .ASK_WHY => some 104
  | .ARGUE => some 105
  | .QUERY_REF => some 106
  | .INFORM_WASTE_POS_ADD_REF => some 107
  | .INFORM_WASTE_POS_REMOVE_REF => some 108
  | .PROPOSE_WASTE => some 201
  | .ACCEPT_WASTE => some 202
  | _ => none

/-- The attributes of `MessagePerformative` that `pairing_logic.py` reads
(lines 15, 49, 63, 85, 110). -/
def pairingLogicPerformatives : List Performative :=
  [.ACCEPT_PAIRING, .REJECT_PAIRING, .REQUEST_PAIRING]

/-- The attributes of `MessagePerformative` that `donor_logic.py` reads
(lines 35, 41, 47, 101, 167, 186, 209, 279). -/
def donorLogicPerformatives : List Performative :=
  [.ACCEPT_DONATION, .INFORM_WASTE_POS_ADD_REF, .REJECT_DONATION,
   .REQUEST_DONATION]

/-- C3: the claim says the `MessagePerformative` enumeration contains
REQUEST_PAIRING / ACCEPT_PAIRING / REJECT_PAIRING and REQUEST_DONATION /
ACCEPT_DONATION / REJECT_DONATION, and that every performative the protocol
code references is a member.  In the source the enum declares only ten
members (PROPOSE .. ACCEPT_WASTE); all six pairing / donation names that
`pairing_logic.py` and `donor_logic.py` reference are missing from it, so
evaluating e.g. `MessagePerformative.REQUEST_PAIRING` (pairing_logic.py:63)
raises `AttributeError`.  This theorem records the six missing members and
that the protocol files do reference them. -/
theorem message_performative_missing_protocol_members :
    Performative.REQUEST_PAIRING ∈ pairingLogicPerformatives ∧
    Performative.ACCEPT_PAIRING ∈ pairingLogicPerformatives ∧
    Performative.REJECT_PAIRING ∈ pairingLogicPerformatives ∧
    Performative.REQUEST_DONATION ∈ donorLogicPerformatives ∧
    Performative.ACCEPT_DONATION ∈ donorLogicPerformatives ∧
    Performative.REJECT_DONATION ∈ donorLogicPerformatives ∧
    Performative.REQUEST_PAIRING ∉ messagePerformativeMembers ∧
    Performative.ACCEPT_PAIRING ∉ messagePerformativeMembers ∧
    Performative.REJECT_PAIRING ∉ messagePerformativeMembers ∧
    Performative.REQUEST_DONATION ∉ messagePerformativeMembers ∧
    Performative.ACCEPT_DONATION ∉ messagePerformativeMembers ∧
    Performative.REJECT_DONATION ∉ messagePerformativeMembers ∧
    performativeValue .REQUEST_PAIRING = none := by
  decide

/-
========================  Messaging substrate (C9)  ========================
`CommunicatingAgent.send_broadcast_message`
(src/communication/agent/communicating_agent.py, lines 46-55).
-/

/-- The kind of an entity in `model.agents`: a communication-capable `Drone`
(a `CommunicatingAgent`), or a plain `Waste` / `Zone` object (`objects.py`),
which have no mailbox. -/
inductive AgentKind where
  | droneK
  | wasteK
  | zoneK
deriving DecidableEq, Repr

/-- An entry of `model.agents` as seen by `send_broadcast_message`: its
unique id and its kind (the `isinstance` checks only look at the class). -/
structure ModelAgent where
  uid : Nat
  kind : AgentKind
deriving DecidableEq, Repr

/-- A message as constructed by `send_broadcast_message`:
`Message(self.unique_id, agent.unique_id, performative, content)`.  The
payload is opaque to the substrate; it is modelled by a `Nat` token. -/
structure BMsg where
  fromId : Nat
  toId : Nat
  perf : Performative
  content : Nat
deriving DecidableEq, Repr

/-- `send_broadcast_message(performative, content)`
(communicating_agent.py lines 46-55): for every agent in `model.agents`,
skip it if it is a `Waste`, a `Zone`, or the sender itself, and otherwise
send it a copy `Message(self.unique_id, agent.unique_id, performative,
content)`.  `agent == self` is modelled as id equality (ids are unique). -/
def sendBroadcastMessage (senderUid : Nat) (agents : List ModelAgent)
    (perf : Performative) (content : Nat) : List BMsg :=
  agents.filterMap fun a =>
    if a.kind = .wasteK ∨ a.kind = .zoneK ∨ a.uid = senderUid then none
    else some ⟨senderUid, a.uid, perf, content⟩

/-- Modelled from the spec: the `MessageService.send_message` / `Mailbox`
delivery step (the files `communication/message/message_service.py`,
`communication/message/message.py` and `communication/mailbox/mailbox.py`
are not under src/).  Spec §4.1: `send(message)` "delivers to exactly one
mailbox (the receiver's), unconditionally"; §3: a mailbox is an ordered
sequence of received messages, appended to on delivery. -/
def deliverMessages (mailbox : Nat → List BMsg) (msgs : List BMsg) :
    Nat → List BMsg :=
  fun uid => mailbox uid ++ msgs.filter fun m => m.toId = uid

theorem sendBroadcastMessage_mem (senderUid : Nat) (agents : List ModelAgent)
    (perf : Performative) (content : Nat) (m : BMsg)
    (hm : m ∈ sendBroadcastMessage senderUid agents perf content) :
    ∃ a ∈ agents, a.kind = .droneK ∧ a.uid ≠ senderUid ∧
      m = ⟨senderUid, a.uid, perf, content⟩ := by
  simp only [sendBroadcastMessage, List.mem_filterMap] at hm
  obtain ⟨a, ha, hf⟩ := hm
  by_cases hskip : a.kind = .wasteK ∨ a.kind = .zoneK ∨ a.uid = senderUid
  · rw [if_pos hskip] at hf; simp at hf
  · rw [if_neg hskip] at hf
    push_neg at hskip
    refine ⟨a, ha, ?_, hskip.2.2, (Option.some.injEq _ _).mp hf |>.symm⟩
    cases hk : a.kind with
    | droneK => rfl
    | wasteK => exact absurd hk hskip.1
    | zoneK => exact absurd hk hskip.2.1

/-- C9: a broadcast from agent A produces one copy addressed to every
communication-capable (`Drone`) agent other than A; no copy is addressed to
A itself, and — given that unique ids are unique (spec §3, "never reused
within a run") — none is addressed to any `Waste` or `Zone` object, so
delivering the copies leaves A's mailbox and every non-communicating
entity's mailbox unchanged. -/
theorem broadcast_exclusion (sender : ModelAgent) (agents : List ModelAgent)
    (perf : Performative) (content : Nat) (mailbox : Nat → List BMsg)
    (hnodup : (agents.map ModelAgent.uid).Nodup) :
    (∀ a ∈ agents, a.kind = .droneK → a.uid ≠ sender.uid →
      (⟨sender.uid, a.uid, perf, content⟩ : BMsg) ∈
        sendBroadcastMessage sender.uid agents perf content) ∧
    (∀ m ∈ sendBroadcastMessage sender.uid agents perf content,
      m.toId ≠ sender.uid) ∧
    (∀ a ∈ agents, (a.kind = .wasteK ∨ a.kind = .zoneK) →
      ∀ m ∈ sendBroadcastMessage sender.uid agents perf content,
        m.toId ≠ a.uid) ∧
    deliverMessages mailbox
        (sendBroadcastMessage sender.uid agents perf content) sender.uid =
      mailbox sender.uid := by
  refine ⟨?_, ?_, ?_, ?_⟩
  · intro a ha hk hne
    simp only [sendBroadcastMessage, List.mem_filterMap]
    exact ⟨a, ha, by rw [if_neg (by simp [hk, hne])]⟩
  · intro m hm
    obtain ⟨a, _, _, hne, hm'⟩ := sendBroadcastMessage_mem _ _ _ _ m hm
    rw [hm']
    exact hne
  · intro a ha hkind m hm
    obtain ⟨b, hb, hbk, _, hm'⟩ := sendBroadcastMessage_mem _ _ _ _ m hm
    rw [hm']
    intro hba
    have hab : b = a := by
      have := List.inj_on_of_nodup_map hnodup
      exact this hb ha hba
    rw [hab] at hbk
    rcases hkind with h | h <;> rw [h] at hbk <;> exact AgentKind.noConfusion hbk
  · have hfil : (sendBroadcastMessage sender.uid agents perf content).filter
        (fun m => m.toId = sender.uid) = [] := by
      rw [List.filter_eq_nil_iff]
      intro m hm
      obtain ⟨a, _, _, hne, hm'⟩ := sendBroadcastMessage_mem _ _ _ _ m hm
      rw [hm']
      simp [hne]
    simp [deliverMessages, hfil]

/-- Concrete witness for `broadcast_exclusion`: a drone (id 1) broadcasting
in a model with another drone (id 2), a waste (id 3) and a zone (id 4). -/
theorem broadcast_exclusion_witness :
    ((([⟨1, .droneK⟩, ⟨2, .droneK⟩, ⟨3, .wasteK⟩, ⟨4, .zoneK⟩] :
        List ModelAgent).map ModelAgent.uid).Nodup) ∧
    ((∀ a ∈ ([⟨1, .droneK⟩, ⟨2, .droneK⟩, ⟨3, .wasteK⟩, ⟨4, .zoneK⟩] :
        List ModelAgent), a.kind = .droneK → a.uid ≠ 1 →
      (⟨1, a.uid, .PROPOSE_WASTE, 7⟩ : BMsg) ∈
        sendBroadcastMessage 1 [⟨1, .droneK⟩, ⟨2, .droneK⟩, ⟨3, .wasteK⟩,
          ⟨4, .zoneK⟩] .PROPOSE_WASTE 7) ∧
    (∀ m ∈ sendBroadcastMessage 1 [⟨1, .droneK⟩, ⟨2, .droneK⟩, ⟨3, .wasteK⟩,
        ⟨4, .zoneK⟩] .PROPOSE_WASTE 7, m.toId ≠ 1) ∧
    (∀ a ∈ ([⟨1, .droneK⟩, ⟨2, .droneK⟩, ⟨3, .wasteK⟩, ⟨4, .zoneK⟩] :
        List ModelAgent), (a.kind = .wasteK ∨ a.kind = .zoneK) →
      ∀ m ∈ sendBroadcastMessage 1 [⟨1, .droneK⟩, ⟨2, .droneK⟩, ⟨3, .wasteK⟩,
          ⟨4, .zoneK⟩] .PROPOSE_WASTE 7, m.toId ≠ a.uid) ∧
    deliverMessages (fun _ => [])
        (sendBroadcastMessage 1 [⟨1, .droneK⟩, ⟨2, .droneK⟩, ⟨3, .wasteK⟩,
          ⟨4, .zoneK⟩] .PROPOSE_WASTE 7) 1 = (fun _ => ([] : List BMsg)) 1) :=
  ⟨by decide,
   broadcast_exclusion ⟨1, .droneK⟩
     [⟨1, .droneK⟩, ⟨2, .droneK⟩, ⟨3, .wasteK⟩, ⟨4, .zoneK⟩]
     .PROPOSE_WASTE 7 (fun _ => []) (by decide)⟩

/-
==============  Collective waste memory (C4) and targeting (C5)  ==============
`Drone.update` (src/agents.py, lines 476-625), `Drone.in_drop_zone`
(lines 824-828).
-/

/-- An entry of `collective_waste_memory`: a `(waste_color, position)` pair. -/
abbrev WasteRec := Nat × Pos

/-- `collective_waste_memory.add((color, pos))` (agents.py line 530; also
line 505): Python `set.add`, a no-op when the pair is already present.  The
replica (a Python `set`) is modelled as a duplicate-free list whose order
stands for the set's iteration order. -/
def setAdd (S : List WasteRec) (p : WasteRec) : List WasteRec :=
  if p ∈ S then S else S ++ [p]

/-- `collective_waste_memory.discard((color, pos))` (agents.py line 542; also
lines 391-393 in `pick_waste` and 760-762 in `deliberate`): Python
`set.discard`, a no-op when the pair is absent. -/
def setDiscard (S : List WasteRec) (p : WasteRec) : List WasteRec :=
  S.filter fun q => q ≠ p

/-- A collective-memory sync message: an ADD or REMOVE record. -/
inductive MemMsg where
  | add (p : WasteRec)
  | remove (p : WasteRec)
deriving DecidableEq, Repr

/-- Applying one received sync record to the local replica, as the two
message loops of `Drone.update` do (agents.py lines 524-545). -/
def applyMemMsg (S : List WasteRec) : MemMsg → List WasteRec
  | .add p => setAdd S p
  | .remove p => setDiscard S p

/-- Applying a sequence of received sync records in order. -/
def applyMemMsgs (S : List WasteRec) (ms : List MemMsg) : List WasteRec :=
  ms.foldl applyMemMsg S

/-- C4: per-record idempotence of the replica operations: a duplicate ADD is
a no-op, a duplicate REMOVE is a no-op, and a REMOVE of an absent pair
leaves the replica unchanged. -/
theorem collective_memory_idempotent (S : List WasteRec) (p : WasteRec) :
    applyMemMsgs S [.add p, .add p] = applyMemMsgs S [.add p] ∧
    applyMemMsgs S [.remove p, .remove p] = applyMemMsgs S [.remove p] ∧
    (p ∉ S → applyMemMsgs S [.remove p] = S) := by
  refine ⟨?_, ?_, ?_⟩
  · simp only [applyMemMsgs, List.foldl, applyMemMsg, setAdd]
    by_cases h : p ∈ S
    · simp [h]
    · rw [if_neg h, if_pos (by simp)]
  · simp only [applyMemMsgs, List.foldl, applyMemMsg, setDiscard]
    rw [List.filter_filter]
    congr 1
    funext a
    exact Bool.and_self _
  · intro h
    simp only [applyMemMsgs, List.foldl, applyMemMsg, setDiscard]
    rw [List.filter_eq_self]
    intro q hq
    simp only [ne_eq, decide_eq_true_eq]
    intro hqp
    exact h (hqp ▸ hq)

/-- Concrete witness for `collective_memory_idempotent`: the REMOVE-of-absent
clause at `S = [(0,(1,1))]`, `p = (1,(2,2))`. -/
theorem collective_memory_idempotent_witness :
    ((1, ((2 : Int), (2 : Int))) ∉ [((0 : Nat), ((1 : Int), (1 : Int)))]) ∧
    applyMemMsgs [((0 : Nat), ((1 : Int), (1 : Int)))]
        [.remove (1, (2, 2))] = [((0 : Nat), ((1 : Int), (1 : Int)))] :=
  ⟨by decide,
   (collective_memory_idempotent [((0 : Nat), ((1 : Int), (1 : Int)))]
     (1, (2, 2))).2.2 (by decide)⟩

/-- `Drone.in_drop_zone(pos)` (agents.py lines 824-828): the position is in
the drop zone iff its x-coordinate is the last grid column. -/
def in_drop_zone (gridWidth : Int) (pos : Pos) : Bool :=
  pos.1 = gridWidth - 1

/-- The slice of drone state read and written by the target-assignment logic
of `Drone.update` (agents.py lines 547-575). -/
structure TargetCtx where
  memory : List WasteRec
  zoneType : Nat
  pos : Pos
  gridWidth : Int
  targetPos : Option Pos
  currentState : Option String
deriving DecidableEq, Repr

/-- The compatible-waste filter of `Drone.update` (agents.py lines 548-552):
entries of the replica whose color equals the drone's `zone_type` and whose
position is not in the drop zone. -/
def compatibleWastes (c : TargetCtx) : List WasteRec :=
  c.memory.filter fun wp =>
    wp.1 = c.zoneType ∧ ¬ in_drop_zone c.gridWidth wp.2

/-- The target-assignment logic of `Drone.update` (agents.py lines 547-575):
with no current target and a nonempty compatible list, target the closest
compatible entry (Python `min` with a Manhattan-distance key); with an empty
replica, clear the target and enter the "searching" state; otherwise keep
the current target. -/
def updateTargetAssignment (c : TargetCtx) : TargetCtx :=
  if compatibleWastes c ≠ [] ∧ c.targetPos = none then
    match pyMin (fun wp => manhattan wp.2 c.pos) (compatibleWastes c) with
    | some closest => { c with targetPos := some closest.2 }
    | none => c
  else if c.memory = [] then
    { c with targetPos := none, currentState := some "searching" }
  else c

/-- C5: with no current target and at least one compatible replica entry,
the drone targets the position of a replica entry that matches its affinity,
is not in the drop zone, and minimizes Manhattan distance (Python `min`:
first-found wins on ties, the list order standing for the replica's
iteration order); and whenever the replica is empty, the state becomes
"searching" and the target is cleared. -/
theorem target_assignment_closest_and_searching (c : TargetCtx) :
    (c.targetPos = none → compatibleWastes c ≠ [] →
      ∃ w ∈ compatibleWastes c,
        (updateTargetAssignment c).targetPos = some w.2 ∧
        w.1 = c.zoneType ∧
        ¬ in_drop_zone c.gridWidth w.2 ∧
        pyMin (fun wp => manhattan wp.2 c.pos) (compatibleWastes c) = some w ∧
        ∀ v ∈ compatibleWastes c, manhattan w.2 c.pos ≤ manhattan v.2 c.pos) ∧
    (c.memory = [] →
      (updateTargetAssignment c).targetPos = none ∧
      (updateTargetAssignment c).currentState = some "searching") := by
  constructor
  · intro htgt hcomp
    cases hmin : pyMin (fun wp => manhattan wp.2 c.pos) (compatibleWastes c) with
    | none =>
      exfalso
      cases hc : compatibleWastes c with
      | nil => exact hcomp hc
      | cons w ws => rw [hc] at hmin; simp [pyMin] at hmin
    | some w =>
      have hw : w ∈ compatibleWastes c := pyMin_mem _ _ _ hmin
      have hprop := List.of_mem_filter hw
      simp only [decide_eq_true_eq] at hprop
      have htp : (updateTargetAssignment c).targetPos = some w.2 := by
        simp only [updateTargetAssignment, if_pos (And.intro hcomp htgt), hmin]
      refine ⟨w, hw, htp, ?_, ?_, ?_, ?_⟩
      · exact hprop.1
      · exact hprop.2
      · rfl
      · exact pyMin_le _ _ _ hmin

  · intro hmem
    have hcomp : compatibleWastes c = [] := by
      simp [compatibleWastes, hmem]
    simp [updateTargetAssignment, hcomp, hmem]

/-- Concrete witness for `target_assignment_closest_and_searching`: a zone-0
drone at the origin with replica entries at distances 4 and 2 (and one
drop-zone entry that must be skipped) targets the distance-2 entry; a drone
with an empty replica enters the "searching" state. -/
theorem target_assignment_witness :
    (({ memory := [(0, (3, 1)), (0, (8, 0)), (0, (1, 1)), (1, (0, 1))],
        zoneType := 0, pos := (0, 0), gridWidth := 9,
        targetPos := none, currentState := none } : TargetCtx).targetPos
          = none) ∧
    (compatibleWastes
      { memory := [(0, (3, 1)), (0, (8, 0)), (0, (1, 1)), (1, (0, 1))],
        zoneType := 0, pos := (0, 0), gridWidth := 9,
        targetPos := none, currentState := none } ≠ []) ∧
    (∃ w ∈ compatibleWastes
        { memory := [(0, (3, 1)), (0, (8, 0)), (0, (1, 1)), (1, (0, 1))],
          zoneType := 0, pos := (0, 0), gridWidth := 9,
          targetPos := none, currentState := none },
      (updateTargetAssignment
        { memory := [(0, (3, 1)), (0, (8, 0)), (0, (1, 1)), (1, (0, 1))],
          zoneType := 0, pos := (0, 0), gridWidth := 9,
          targetPos := none, currentState := none }).targetPos = some w.2 ∧
      w.1 = 0 ∧
      ¬ in_drop_zone 9 w.2 ∧
      pyMin (fun wp => manhattan wp.2 (0, 0)) (compatibleWastes
        { memory := [(0, (3, 1)), (0, (8, 0)), (0, (1, 1)), (1, (0, 1))],
          zoneType := 0, pos := (0, 0), gridWidth := 9,
          targetPos := none, currentState := none }) = some w ∧
      ∀ v ∈ compatibleWastes
          { memory := [(0, (3, 1)), (0, (8, 0)), (0, (1, 1)), (1, (0, 1))],
            zoneType := 0, pos := (0, 0), gridWidth := 9,
            targetPos := none, currentState := none },
        manhattan w.2 (0, 0) ≤ manhattan v.2 (0, 0)) :=
  ⟨rfl, by decide,
   (target_assignment_closest_and_searching
     { memory := [(0, (3, 1)), (0, (8, 0)), (0, (1, 1)), (1, (0, 1))],
       zoneType := 0, pos := (0, 0), gridWidth := 9,
       targetPos := none, currentState := none }).1 rfl (by decide)⟩

/-
==================  Deliberation and waste actions (C2, C10)  ==================
`Drone.deliberate` (src/agents.py, lines 669-792), `Drone.drop_waste`
(lines 426-474), `Drone.transform_waste` (lines 627-667), `Drone.pick_waste`
(lines 329-424).
-/

/-- The slice of drone state read by `Drone.deliberate`: knowledge flags,
inventory, percepts (`neighbor_wastes` as `(waste_id, position)` pairs) and
the environment lookup `model.get_agent_by_id(waste_id).waste_color`,
modelled by the function field `wasteColorOf`.  `self.zone_type` and
`self.knowledge.zone_type` are both set from the constructor's `zone_type`
argument and never reassigned, so a single field stands for both. -/
structure DelibContext where
  pos : Pos
  zoneType : Nat
  gridWidth : Int
  inTransferZone : Bool
  inDropZone : Bool
  inventory : List Waste
  shouldMoveEast : Bool
  canPick : Bool
  neighborWastes : List (Nat × Pos)
  targetPos : Option Pos
  memory : List WasteRec
  wasteColorOf : Nat → Nat

/-- The `can_drop` guard of `Drone.deliberate` (agents.py lines 687-699):
in the transfer zone, at a non-terminal stage, with a nonempty inventory
holding some item of color `zone_type + 1`; or in the drop zone with a
nonempty inventory all of whose items have color 2. -/
def canDrop (c : DelibContext) : Bool :=
  (c.inTransferZone && decide (c.zoneType < 2) && !c.inventory.isEmpty
    && c.inventory.any fun w => w.color = c.zoneType + 1)
  || (c.inDropZone && !c.inventory.isEmpty
    && c.inventory.all fun w => w.color = 2)

/-- The `can_pick` guard of `Drone.deliberate` (agents.py lines 724-732):
spare capacity, some waste perceived nearby, the `can_pick` knowledge flag,
and some perceived waste lying outside the drop zone. -/
def canPickFlag (c : DelibContext) : Bool :=
  decide (c.inventory.length < 2) && !c.neighborWastes.isEmpty && c.canPick
    && c.neighborWastes.any fun wp => !(in_drop_zone c.gridWidth wp.2)

/-- The compatibility loop of `Drone.deliberate` (agents.py lines 736-747):
some perceived waste has the drone's own color and the inventory is empty or
already holds that color. -/
def pickCompatibleNearby (c : DelibContext) : Bool :=
  c.neighborWastes.any fun wp =>
    decide (c.wasteColorOf wp.1 = c.zoneType) &&
    (c.inventory.isEmpty ||
      (c.inventory.map Waste.color).contains (c.wasteColorOf wp.1))

/-- `Drone.deliberate` (agents.py lines 669-792): the fixed-priority decision
list — 1. drop, 2. transform, 3. move east, 4. pick, 5. targeted movement,
6. random search.  Returns the chosen action name together with the mutated
state (priority 5 clears the target and discards the reached entry from the
collective memory). -/
def deliberate (c : DelibContext) : String × DelibContext :=
  if canDrop c then ("drop_waste", c)
  else if !c.inventory.isEmpty && decide (c.inventory.length = 2)
      && decide (c.zoneType < 2) then ("transform_waste", c)
  else if c.shouldMoveEast && !c.inventory.isEmpty then ("move_east", c)
  else if canPickFlag c && pickCompatibleNearby c then ("pick_waste", c)
  else
    match c.targetPos with
    | some t =>
      if c.pos = t then
        let c2 := { c with targetPos := none,
                           memory := setDiscard c.memory (c.zoneType, c.pos) }
        if canPickFlag c2 then ("pick_waste", c2) else ("move_randomly", c2)
      else if !(c.memory.any fun wp => wp.2 = t) then
        ("move_randomly", { c with targetPos := none })
      else ("step_towards_target", c)
    | none => ("move_randomly", c)

/-- `Drone.drop_waste` (agents.py lines 426-474): pop the first inventory
item (an exception on an empty list, modelled as `none`), assert its color is
`zone_type + 1` or 2 (an `AssertionError` modelled as `none`), place it at
the drone's position and broadcast an ADD record for it.  Returns the
remaining inventory, the dropped item, and the broadcast `(color, pos)`
record. -/
def dropWaste (zoneType : Nat) (pos : Pos) :
    List Waste → Option (List Waste × Waste × WasteRec)
  | [] => none
  | w :: rest =>
    if w.color = zoneType + 1 ∨ w.color = 2 then some (rest, w, (w.color, pos))
    else none

/-- `Drone.transform_waste` (agents.py lines 627-667): clear the inventory
and replace it with a single fresh item of color `zone_type + 1`. -/
def transformWaste (zoneType : Nat) (_inventory : List Waste)
    (newUid : Nat) : List Waste :=
  [⟨newUid, zoneType + 1⟩]

/-- A waste as seen by `Drone.pick_waste`: the item, its perceived position,
and whether it is still on the grid (`waste.pos is not None`,
agents.py line 369). -/
structure NearbyWaste where
  w : Waste
  pos : Pos
  onGrid : Bool
deriving DecidableEq, Repr

/-- The pick-compatibility condition of `Drone.pick_waste` (agents.py lines
366-368): the waste has the drone's own color and the inventory is empty or
already holds that color. -/
def pickCond (zoneType : Nat) (inventory : List Waste) (w : Waste) : Prop :=
  w.color = zoneType ∧
    (inventory = [] ∨ w.color ∈ inventory.map Waste.color)

instance (zoneType : Nat) (inventory : List Waste) (w : Waste) :
    Decidable (pickCond zoneType inventory w) := by
  unfold pickCond; infer_instance

/-- The inventory effect of `Drone.pick_waste` (agents.py lines 329-424):
nothing happens with no waste nearby or a full inventory; otherwise the
first nearby waste that is compatible and still on the grid is appended to
the inventory (the loop returns on the first hit; incompatible wastes only
clear the `can_pick` flag). -/
def pickWasteInv (zoneType : Nat) (inventory : List Waste)
    (nearby : List NearbyWaste) : List Waste :=
  if nearby = [] ∨ inventory.length ≥ 2 then inventory
  else
    match nearby.find? (fun n => decide (pickCond zoneType inventory n.w)
        && n.onGrid) with
    | some n => inventory ++ [n.w]
    | none => inventory

/-- The inventory states reachable by the drone's own operations: either
every carried item has the drone's own color (0, 1 or 2 items collected by
`pick_waste`), or the inventory is the single `zone_type + 1` item produced
by `transform_waste`. -/
def inventoryInvariant (zoneType : Nat) (inv : List Waste) : Prop :=
  (∀ w ∈ inv, w.color = zoneType) ∨ inv.map Waste.color = [zoneType + 1]

instance (zoneType : Nat) (inv : List Waste) :
    Decidable (inventoryInvariant zoneType inv) := by
  unfold inventoryInvariant; infer_instance

/-- A drone starts with an empty inventory (`DroneKnowledge` default). -/
theorem inventoryInvariant_nil (zoneType : Nat) :
    inventoryInvariant zoneType [] := by
  left; intro w hw; simp at hw

/-- `pick_waste` preserves the inventory invariant. -/
theorem inventoryInvariant_pick (zoneType : Nat) (inv : List Waste)
    (nearby : List NearbyWaste) (hinv : inventoryInvariant zoneType inv) :
    inventoryInvariant zoneType (pickWasteInv zoneType inv nearby) := by
  unfold pickWasteInv
  split
  · exact hinv
  · cases hf : nearby.find? (fun n => decide (pickCond zoneType inv n.w)
        && n.onGrid) with
    | none => exact hinv
    | some n =>
      have hcond := List.find?_some hf
      rw [Bool.and_eq_true, decide_eq_true_eq] at hcond
      obtain ⟨⟨hcol, hmem⟩, _⟩ := hcond
      rcases hinv with hall | hone
      · left
        intro w hw
        rcases List.mem_append.mp hw with h1 | h1
        · exact hall w h1
        · rw [List.mem_singleton.mp h1, hcol]
      · exfalso
        rcases hmem with hnil | hin
        · rw [hnil] at hone; simp at hone
        · rw [hone, List.mem_singleton] at hin
          rw [hcol] at hin
          omega

/-- `transform_waste` establishes the invariant's second disjunct. -/
theorem inventoryInvariant_transform (zoneType : Nat) (inv : List Waste)
    (newUid : Nat) :
    inventoryInvariant zoneType (transformWaste zoneType inv newUid) := by
  right; simp [transformWaste]

/-- `drop_waste` preserves the inventory invariant. -/
theorem inventoryInvariant_drop (zoneType : Nat) (pos : Pos)
    (inv rest : List Waste) (w : Waste) (rec : WasteRec)
    (hinv : inventoryInvariant zoneType inv)
    (h : dropWaste zoneType pos inv = some (rest, w, rec)) :
    inventoryInvariant zoneType rest := by
  cases inv with
  | nil => simp [dropWaste] at h
  | cons w0 l =>
    simp only [dropWaste] at h
    split at h
    · rcases hinv with hall | hone
      · left
        intro v hv
        have : l = rest := by
          simpa using congrArg (fun p => p.1) (Option.some.injEq _ _ |>.mp h)
        rw [← this] at hv
        exact hall v (List.mem_cons_of_mem _ hv)
      · left
        have h1 : l = rest := by
          simpa using congrArg (fun p => p.1) (Option.some.injEq _ _ |>.mp h)
        have h2 : l.map Waste.color = [] := by
          simp only [List.map_cons] at hone
          exact (List.cons.injEq _ _ _ _ |>.mp hone).2
        have h3 : l = [] := List.map_eq_nil_iff.mp h2
        rw [← h1, h3]
        intro v hv; simp at hv
    · exact Option.noConfusion h

/-- A deliberation state with a full (2-item) inventory at a non-terminal
stage whose inventory also satisfies the drop guard: in the transfer zone,
zone 0, holding one item of color 1 and one of color 0. -/
def delibTwoItemsCtx : DelibContext :=
  { pos := (2, 0), zoneType := 0, gridWidth := 9,
    inTransferZone := true, inDropZone := false,
    inventory := [⟨11, 1⟩, ⟨12, 0⟩],
    shouldMoveEast := false, canPick := true,
    neighborWastes := [], targetPos := none, memory := [],
    wasteColorOf := fun _ => 0 }

/-- C2 counterexample: the claim says transform is the TOP priority — that
`deliberate` returns the transform action for EVERY state with exactly 2
inventory items at a non-terminal stage.  In the source (agents.py lines
686-716) the drop guard is PRIORITY 1 and transform is PRIORITY 2, so at
`delibTwoItemsCtx` (2 items, zone 0 < 2, drop guard true) `deliberate`
returns `"drop_waste"`, not `"transform_waste"`. -/
theorem deliberate_two_items_drop_counterexample :
    delibTwoItemsCtx.inventory.length = 2 ∧
    delibTwoItemsCtx.zoneType < 2 ∧
    (deliberate delibTwoItemsCtx).1 = "drop_waste" ∧
    ¬ (deliberate delibTwoItemsCtx).1 = "transform_waste" := by
  refine ⟨by decide, by decide, by rfl, by decide⟩

/-- C2 (amended): transform is the SECOND priority: for every state with
exactly 2 inventory items, a non-terminal stage, and a failing drop guard
(the true top priority), `deliberate` returns the transform action. -/
theorem deliberate_transform_second_priority (c : DelibContext)
    (hlen : c.inventory.length = 2) (hzone : c.zoneType < 2)
    (hdrop : canDrop c = false) :
    (deliberate c).1 = "transform_waste" := by
  have hne : c.inventory.isEmpty = false := by
    cases hc : c.inventory with
    | nil => rw [hc] at hlen; simp at hlen
    | cons a l => simp
  simp [deliberate, hdrop, hne, hlen, hzone]

/-- A deliberation state for the `deliberate_transform_second_priority`
witness: 2 items of the drone's own color, not at any boundary. -/
def transformCtx : DelibContext :=
  { pos := (1, 1), zoneType := 0, gridWidth := 9,
    inTransferZone := false, inDropZone := false,
    inventory := [⟨1, 0⟩, ⟨2, 0⟩],
    shouldMoveEast := false, canPick := true,
    neighborWastes := [], targetPos := none, memory := [],
    wasteColorOf := fun _ => 0 }

/-- Concrete witness for `deliberate_transform_second_priority`. -/
theorem deliberate_transform_second_priority_witness :
    transformCtx.inventory.length = 2 ∧ transformCtx.zoneType < 2 ∧
    canDrop transformCtx = false ∧
    (deliberate transformCtx).1 = "transform_waste" :=
  ⟨by decide, by decide, by decide,
   deliberate_transform_second_priority transformCtx (by decide) (by decide)
     (by decide)⟩

/-- C10: on every inventory reachable by the drone's own operations (the
invariant established by `inventoryInvariant_nil` and preserved by
`inventoryInvariant_pick` / `inventoryInvariant_transform` /
`inventoryInvariant_drop`), whenever `deliberate` returns the drop action
the inventory is nonempty and its first item has color `zone_type + 1` or 2,
so `drop_waste` neither pops from an empty inventory nor fails its
assertion (`dropWaste` returns `some`). -/
theorem deliberate_drop_safe (c : DelibContext)
    (hinv : inventoryInvariant c.zoneType c.inventory)
    (hd : (deliberate c).1 = "drop_waste") :
    c.inventory ≠ [] ∧
    (dropWaste c.zoneType c.pos c.inventory).isSome := by
  have hcd : canDrop c = true := by
    by_contra hcd
    rw [Bool.not_eq_true] at hcd
    unfold deliberate at hd
    rw [hcd] at hd
    simp only [Bool.false_eq_true, if_false] at hd
    have hts : ("transform_waste" : String) ≠ "drop_waste" := by decide
    have hme : ("move_east" : String) ≠ "drop_waste" := by decide
    have hpw : ("pick_waste" : String) ≠ "drop_waste" := by decide
    have hmr : ("move_randomly" : String) ≠ "drop_waste" := by decide
    have hst : ("step_towards_target" : String) ≠ "drop_waste" := by decide
    split at hd
    · exact hts hd
    · split at hd
      · exact hme hd
      · split at hd
        · exact hpw hd
        · split at hd
          · split at hd
            · split at hd
              · exact hpw hd
              · exact hmr hd
            · split at hd
              · exact hmr hd
              · exact hst hd
          · exact hmr hd
  rw [canDrop, Bool.or_eq_true] at hcd
  rcases hcd with hA | hB
  · rw [Bool.and_eq_true, Bool.and_eq_true, Bool.and_eq_true] at hA
    obtain ⟨⟨⟨_, _⟩, hne⟩, hany⟩ := hA
    have hnil : c.inventory ≠ [] := by
      intro h; rw [h] at hne; simp at hne
    rcases hinv with hall | hone
    · exfalso
      rw [List.any_eq_true] at hany
      obtain ⟨w, hw, hwc⟩ := hany
      rw [decide_eq_true_eq] at hwc
      have := hall w hw
      omega
    · cases hc : c.inventory with
      | nil => exact absurd hc hnil
      | cons w0 l =>
        rw [hc] at hone
        simp only [List.map_cons] at hone
        have hw0 : w0.color = c.zoneType + 1 :=
          (List.cons.injEq _ _ _ _ |>.mp hone).1
        refine ⟨by simp, ?_⟩
        simp [dropWaste, hw0]
  · rw [Bool.and_eq_true, Bool.and_eq_true] at hB
    obtain ⟨⟨_, hne⟩, hall2⟩ := hB
    have hnil : c.inventory ≠ [] := by
      intro h; rw [h] at hne; simp at hne
    cases hc : c.inventory with
    | nil => exact absurd hc hnil
    | cons w0 l =>
      rw [List.all_eq_true] at hall2
      have hw0 := hall2 w0 (by rw [hc]; exact List.mem_cons_self _ _)
      rw [decide_eq_true_eq] at hw0
      refine ⟨by simp, ?_⟩
      simp [dropWaste, hw0]

/-- A reachable deliberation state satisfying the drop guard: zone 0, in the
transfer zone, carrying the single transformed item of color 1. -/
def dropSafeCtx : DelibContext :=
  { pos := (2, 0), zoneType := 0, gridWidth := 9,
    inTransferZone := true, inDropZone := false,
    inventory := [⟨9, 1⟩],
    shouldMoveEast := false, canPick := true,
    neighborWastes := [], targetPos := none, memory := [],
    wasteColorOf := fun _ => 0 }

/-- Concrete witness for `deliberate_drop_safe`. -/
theorem deliberate_drop_safe_witness :
    inventoryInvariant dropSafeCtx.zoneType dropSafeCtx.inventory ∧
    (deliberate dropSafeCtx).1 = "drop_waste" ∧
    (dropSafeCtx.inventory ≠ [] ∧
      (dropWaste dropSafeCtx.zoneType dropSafeCtx.pos
        dropSafeCtx.inventory).isSome) :=
  ⟨by decide, by rfl, deliberate_drop_safe dropSafeCtx (by decide) (by rfl)⟩

/-
========================  Pairing protocol (C1)  ========================
`pairing_logic` (src/pairing_logic.py, lines 4-177).
-/

/-- A pairing-protocol message: performative, sender id (`get_exp()`),
addressee (`to_agent`), and the `(unique_id, pos)` content tuple every
pairing message carries. -/
structure PMsg where
  perf : Performative
  exp : Nat
  dest : Nat
  contentId : Nat
  contentPos : Pos
deriving DecidableEq, Repr

/-- Another entry of `model.agents` as read by the compatible-agent scan of
`pairing_logic` (pairing_logic.py lines 138-148). -/
structure PairPeer where
  uid : Nat
  isDrone : Bool
  zoneType : Nat
  inventory : List Waste
  carriedWasteTimeout : Nat
  pos : Pos
deriving DecidableEq, Repr

/-- The drone state read and written by `pairing_logic`: `drone.pos`,
`drone.unique_id`, `drone.zone_type` and the knowledge fields
`pairing_status`, `carried_waste_timeout`, `paired_agent` (stored as the
partner's id; the Python code stores the agent object obtained from
`model.get_agent_by_id`), `rejected_by`, `other_agent_with_extra_waste`,
`inventory`; `others` models `drone.model.agents` minus the drone itself. -/
structure PDrone where
  uid : Nat
  pos : Pos
  zoneType : Nat
  inventory : List Waste
  pairingStatus : String
  carriedWasteTimeout : Nat
  pairedAgent : Option Nat
  rejectedBy : List Nat
  otherAgentWithExtraWaste : Option Nat
  others : List PairPeer
deriving DecidableEq, Repr

/-- The ACCEPT_PAIRING handling of the `"requesting"` branch
(pairing_logic.py lines 12-38): with an acceptance present and the timeout
at zero, pair with the closest acceptor, reset the timeout and clear the
rejection blacklist. -/
def pairingAcceptUpdate (d : PDrone) (msgs : List PMsg) (MAXT : Nat) :
    PDrone :=
  if (msgs.filter fun m => m.perf = .ACCEPT_PAIRING) ≠ [] ∧
      d.carriedWasteTimeout = 0 then
    match pyMin (fun m => manhattan m.contentPos d.pos)
        (msgs.filter fun m => m.perf = .ACCEPT_PAIRING) with
    | some closest =>
      { d with pairedAgent := some closest.exp,
               pairingStatus := "paired",
               carriedWasteTimeout := MAXT,
               rejectedBy := [] }
    | none => d
  else d

/-- The whole `"requesting"` branch (pairing_logic.py lines 10-56): the
ACCEPT_PAIRING handling followed by appending every REJECT_PAIRING sender to
the rejection blacklist. -/
def pairingRequestingUpdate (d : PDrone) (msgs : List PMsg) (MAXT : Nat) :
    PDrone :=
  { pairingAcceptUpdate d msgs MAXT with
    rejectedBy := (pairingAcceptUpdate d msgs MAXT).rejectedBy ++
      ((msgs.filter fun m => m.perf = .REJECT_PAIRING).map PMsg.exp) }

/-- The status dispatch of `pairing_logic` (pairing_logic.py lines 10-118):
a `"requesting"` drone processes acceptances and rejections; an `"unpaired"`
drone with requests present accepts the closest requester when its timeout
is zero (sending a single ACCEPT_PAIRING and sending nothing to the other
requesters), and sends REJECT_PAIRING to every requester otherwise. -/
def pairingBranch (d : PDrone) (msgs : List PMsg) (MAXT : Nat) :
    PDrone × List PMsg :=
  if d.pairingStatus = "requesting" then
    (pairingRequestingUpdate d msgs MAXT, [])
  else if d.pairingStatus = "unpaired" then
    if (msgs.filter fun m => m.perf = .REQUEST_PAIRING) ≠ [] ∧
        d.carriedWasteTimeout = 0 then
      match pyMin (fun m => manhattan m.contentPos d.pos)
          (msgs.filter fun m => m.perf = .REQUEST_PAIRING) with
      | some closest =>
        ({ d with pairingStatus := "paired",
                  pairedAgent := some closest.exp },
         [⟨.ACCEPT_PAIRING, d.uid, closest.exp, d.uid, d.pos⟩])
      | none => (d, [])
    else if (msgs.filter fun m => m.perf = .REQUEST_PAIRING) ≠ [] then
      (d, (msgs.filter fun m => m.perf = .REQUEST_PAIRING).map
        fun m => ⟨.REJECT_PAIRING, d.uid, m.exp, d.uid, d.pos⟩)
    else (d, [])
  else (d, [])

/-- The compatible-agent condition of the timeout tail (pairing_logic.py
lines 138-148): a different agent of class `Drone`, same zone, holding
exactly one item of the drone's own color, its own timeout at zero, and not
on the drone's rejection blacklist. -/
def pairingCompatible (d : PDrone) (a : PairPeer) : Prop :=
  a.uid ≠ d.uid ∧ a.isDrone = true ∧ a.zoneType = d.zoneType ∧
  a.inventory.length = 1 ∧
  a.inventory.head?.map Waste.color = some d.zoneType ∧
  a.carriedWasteTimeout = 0 ∧ a.uid ∉ d.rejectedBy

instance (d : PDrone) (a : PairPeer) : Decidable (pairingCompatible d a) := by
  unfold pairingCompatible; infer_instance

/-- The carried-waste-timeout tail of `pairing_logic` (pairing_logic.py
lines 120-177): decrement the running timeout while holding one item at a
non-terminal stage; on an expired timeout while not `"paired"`, pick the
closest compatible agent, become `"requesting"`, re-arm the timeout and send
it a REQUEST_PAIRING. -/
def pairingTail (d : PDrone) (MAXT : Nat) : PDrone × List PMsg :=
  if d.carriedWasteTimeout > 0 ∧ d.zoneType < 2 ∧ d.inventory.length = 1 then
    ({ d with carriedWasteTimeout := d.carriedWasteTimeout - 1 }, [])
  else if d.carriedWasteTimeout = 0 ∧ d.zoneType < 2 ∧
      d.pairingStatus ≠ "paired" then
    match pyMin (fun a => manhattan a.pos d.pos)
        (d.others.filter fun a => decide (pairingCompatible d a)) with
    | some closest =>
      ({ d with pairingStatus := "requesting",
                otherAgentWithExtraWaste := some closest.uid,
                carriedWasteTimeout := MAXT },
       [⟨.REQUEST_PAIRING, d.uid, closest.uid, d.uid, d.pos⟩])
    | none => ({ d with otherAgentWithExtraWaste := none }, [])
  else (d, [])

/-- `pairing_logic(drone, new_messages, MAX_TIMEOUT_STEP)`
(pairing_logic.py lines 4-177): the status dispatch followed by the
timeout tail, collecting the messages sent by both. -/
def pairingLogic (d : PDrone) (msgs : List PMsg) (MAXT : Nat) :
    PDrone × List PMsg :=
  ((pairingTail (pairingBranch d msgs MAXT).1 MAXT).1,
   (pairingBranch d msgs MAXT).2 ++
     (pairingTail (pairingBranch d msgs MAXT).1 MAXT).2)

/-- An eligible unpaired drone (timeout 0) for the C1 counterexample. -/
def pairingCtrDrone : PDrone :=
  { uid := 1, pos := (0, 0), zoneType := 0, inventory := [⟨5, 0⟩],
    pairingStatus := "unpaired", carriedWasteTimeout := 0,
    pairedAgent := none, rejectedBy := [], otherAgentWithExtraWaste := none,
    others := [] }

/-- Two simultaneous pairing requests, from agent 10 (distance 1) and agent
11 (distance 2). -/
def pairingCtrMsgs : List PMsg :=
  [⟨.REQUEST_PAIRING, 10, 1, 10, (1, 0)⟩,
   ⟨.REQUEST_PAIRING, 11, 1, 11, (2, 0)⟩]

/-- C1 counterexample: the claim says the other simultaneous requesters
receive REJECT_PAIRING.  In the source (pairing_logic.py lines 66-94) the
eligible branch sends only the single ACCEPT_PAIRING to the closest
requester and nothing to the others (REJECT_PAIRING is sent to requesters
only in the ineligible `elif` branch, lines 96-115): here agent 11's request
is simply dropped. -/
theorem pairing_no_reject_counterexample :
    (pairingCtrMsgs.filter fun m => m.perf = .REQUEST_PAIRING).length = 2 ∧
    pairingCtrDrone.pairingStatus = "unpaired" ∧
    pairingCtrDrone.carriedWasteTimeout = 0 ∧
    (pairingLogic pairingCtrDrone pairingCtrMsgs 10).2 =
      [⟨.ACCEPT_PAIRING, 1, 10, 1, (0, 0)⟩] ∧
    ¬ ∃ m ∈ (pairingLogic pairingCtrDrone pairingCtrMsgs 10).2,
        m.perf = .REJECT_PAIRING := by
  refine ⟨by decide, by decide, by decide, by decide, by decide⟩

/-- C1 (amended): an `unpaired` drone with its carried-waste timeout at zero
that receives N ≥ 1 REQUEST_PAIRING messages sends exactly one message: an
ACCEPT_PAIRING to the requester at minimum Manhattan distance (first-found
on ties); no REJECT_PAIRING (nor anything else) is sent to the other
simultaneous requesters; the drone's status becomes `paired` and its single
`paired_agent` field records that one partner only. -/
theorem pairing_unpaired_accepts_closest_only (d : PDrone)
    (msgs : List PMsg) (MAXT : Nat) (q : PMsg) (qs : List PMsg)
    (hstat : d.pairingStatus = "unpaired")
    (htime : d.carriedWasteTimeout = 0)
    (hreq : (msgs.filter fun m => m.perf = .REQUEST_PAIRING) = q :: qs) :
    ∃ closest,
      pyMin (fun m => manhattan m.contentPos d.pos) (q :: qs) = some closest ∧
      (pairingLogic d msgs MAXT).2 =
        [⟨.ACCEPT_PAIRING, d.uid, closest.exp, d.uid, d.pos⟩] ∧
      (pairingLogic d msgs MAXT).1.pairingStatus = "paired" ∧
      (pairingLogic d msgs MAXT).1.pairedAgent = some closest.exp ∧
      closest ∈ q :: qs ∧
      ∀ m ∈ q :: qs,
        manhattan closest.contentPos d.pos ≤ manhattan m.contentPos d.pos := by
  obtain ⟨closest, hmin⟩ :
      ∃ c, pyMin (fun m => manhattan m.contentPos d.pos) (q :: qs) = some c :=
    ⟨_, rfl⟩
  have hbr : pairingBranch d msgs MAXT =
      ({ d with pairingStatus := "paired",
                pairedAgent := some closest.exp },
       [⟨.ACCEPT_PAIRING, d.uid, closest.exp, d.uid, d.pos⟩]) := by
    unfold pairingBranch
    rw [if_neg (by rw [hstat]; decide), if_pos hstat, hreq,
      if_pos (And.intro (by simp) htime), hmin]
  have htl : pairingTail
      { d with pairingStatus := "paired",
               pairedAgent := some closest.exp } MAXT =
      ({ d with pairingStatus := "paired",
                pairedAgent := some closest.exp }, []) := by
    unfold pairingTail
    rw [if_neg (by simp [htime]), if_neg (by simp)]
  refine ⟨closest, hmin, ?_, ?_, ?_, pyMin_mem _ _ _ hmin,
    pyMin_le _ _ _ hmin⟩
  · unfold pairingLogic
    rw [hbr]
    simp only [htl, List.append_nil]
  · unfold pairingLogic
    rw [hbr]
    simp only [htl]
  · unfold pairingLogic
    rw [hbr]
    simp only [htl]

/-- An eligible unpaired drone for the C1 witness. -/
def pairWitDrone : PDrone :=
  { uid := 2, pos := (3, 3), zoneType := 0, inventory := [⟨6, 0⟩],
    pairingStatus := "unpaired", carriedWasteTimeout := 0,
    pairedAgent := none, rejectedBy := [], otherAgentWithExtraWaste := none,
    others := [] }

/-- A single pairing request from agent 7 at distance 1, for the C1 witness. -/
def pairWitMsg : PMsg := ⟨.REQUEST_PAIRING, 7, 2, 7, (4, 3)⟩

/-- Concrete witness for `pairing_unpaired_accepts_closest_only`. -/
theorem pairing_unpaired_accepts_closest_only_witness :
    pairWitDrone.pairingStatus = "unpaired" ∧
    pairWitDrone.carriedWasteTimeout = 0 ∧
    ([pairWitMsg].filter fun m => m.perf = .REQUEST_PAIRING) =
      pairWitMsg :: [] ∧
    ∃ closest,
      pyMin (fun m => manhattan m.contentPos pairWitDrone.pos)
        (pairWitMsg :: []) = some closest ∧
      (pairingLogic pairWitDrone [pairWitMsg] 10).2 =
        [⟨.ACCEPT_PAIRING, pairWitDrone.uid, closest.exp, pairWitDrone.uid,
          pairWitDrone.pos⟩] ∧
      (pairingLogic pairWitDrone [pairWitMsg] 10).1.pairingStatus =
        "paired" ∧
      (pairingLogic pairWitDrone [pairWitMsg] 10).1.pairedAgent =
        some closest.exp ∧
      closest ∈ pairWitMsg :: [] ∧
      ∀ m ∈ pairWitMsg :: [],
        manhattan closest.contentPos pairWitDrone.pos ≤
          manhattan m.contentPos pairWitDrone.pos :=
  ⟨rfl, rfl, by decide,
   pairing_unpaired_accepts_closest_only pairWitDrone [pairWitMsg] 10
     pairWitMsg [] rfl rfl (by decide)⟩

/-
====================  Deadlock-resolution protocol (C6, C7)  ====================
`_solve_deadlock` (src/_solve_deadlock.py, lines 1-94).
-/

/-- A deadlock-protocol message: performative, sender id (`get_sender()` and
`get_exp()`, both the sending agent per the spec's Message record),
addressee, and the `(waste_color, position)` content tuple. -/
structure DMsg where
  perf : Performative
  sender : Nat
  dest : Nat
  contentColor : Nat
  contentPos : Pos
deriving DecidableEq, Repr

/-- An output of `_solve_deadlock`: a `send_broadcast_message` call or a
directed `send_message` call. -/
inductive DOut where
  | broadcast (perf : Performative) (contentColor : Nat) (contentPos : Pos)
  | direct (m : DMsg)
deriving DecidableEq, Repr

/-- The performative of an output. -/
def doutPerf : DOut → Performative
  | .broadcast p _ _ => p
  | .direct m => m.perf

/-- The drone state read and written by `_solve_deadlock`: `self.pos`,
`self.unique_id`, `self.zone_type`, `self.is_deadlocked`,
`self._already_proposed`, `self._wait_timeout`, `self.transfer_target` and
the knowledge fields `inventory`, `carry_timeout`, `deadlock_status`,
`target_pos` (`self.zone_type` and `self.knowledge.zone_type` are both the
constructor's `zone_type`, modelled by one field). -/
structure DDrone where
  uid : Nat
  pos : Pos
  zoneType : Nat
  inventory : List Waste
  carryTimeout : Int
  deadlockStatus : String
  isDeadlocked : Bool
  alreadyProposed : Bool
  waitTimeout : Int
  transferTarget : Option Nat
  targetPos : Option Pos
deriving DecidableEq, Repr

/-- The deadlock check of `_solve_deadlock` (lines 3-8): carry timeout
expired, non-terminal stage, and exactly one carried item of the drone's own
color. -/
def deadlockCheck (d : DDrone) : Bool :=
  decide (d.carryTimeout ≤ 0) && decide (d.zoneType < 2) &&
  decide (d.inventory.length = 1) &&
  decide (d.inventory.head?.map Waste.color = some d.zoneType)

/-- `self.knowledge.inventory[0].waste_color`; every use is guarded by
`is_deadlocked` (inventory length exactly 1), so the default is never
read. -/
def headColor (d : DDrone) : Nat :=
  (d.inventory.head?.map Waste.color).getD 0

/-- The `"proposing"` handler of `_solve_deadlock` (lines 73-94): with
ACCEPT_WASTE replies present, pick the closest acceptor, record it as the
transfer target, set the target position to its reported position, and move
to `"moving_to_give"`. -/
def solveDeadlockProposing (d : DDrone) (msgs : List DMsg)
    (out : List DOut) : DDrone × List DOut :=
  if d.deadlockStatus = "proposing" then
    match msgs.filter fun m => m.perf = .ACCEPT_WASTE with
    | [] => (d, out)
    | a :: rest =>
      match pyMin (fun m => manhattan d.pos m.contentPos) (a :: rest) with
      | some chosen =>
        ({ d with transferTarget := some chosen.sender,
                  deadlockStatus := "moving_to_give",
                  targetPos := some chosen.contentPos }, out)
      | none => (d, out)
  else (d, out)

/-- The `"waiting_for_giver"` handler of `_solve_deadlock` (lines 65-71):
decrement the wait timeout, reverting to `"idle"` on expiry; otherwise fall
through to the `"proposing"` handler. -/
def solveDeadlockRest (d : DDrone) (msgs : List DMsg) (_MAXC : Int)
    (out : List DOut) : DDrone × List DOut :=
  if d.deadlockStatus = "waiting_for_giver" then
    if d.waitTimeout - 1 ≤ 0 then
      ({ d with waitTimeout := d.waitTimeout - 1, deadlockStatus := "idle" },
       out)
    else solveDeadlockProposing { d with waitTimeout := d.waitTimeout - 1 }
      msgs out
  else solveDeadlockProposing d msgs out

/-- The `"idle"` handler of `_solve_deadlock` (lines 29-63): on a
PROPOSE_WASTE proposal, reply ACCEPT_WASTE to the closest proposer, arm the
wait timeout and move to `"waiting_for_giver"`; with no proposal fall
through. -/
def solveDeadlockBody (d : DDrone) (msgs : List DMsg) (MAXC : Int)
    (out : List DOut) : DDrone × List DOut :=
  if d.deadlockStatus = "idle" then
    match pyMin (fun m => manhattan d.pos m.contentPos)
        (msgs.filter fun m => m.perf = .PROPOSE_WASTE) with
    | some closest =>
      ({ d with deadlockStatus := "waiting_for_giver", waitTimeout := MAXC },
       out ++ [.direct ⟨.ACCEPT_WASTE, d.uid, closest.sender, headColor d,
         d.pos⟩])
    | none => solveDeadlockRest d msgs MAXC out
  else solveDeadlockRest d msgs MAXC out

/-- `_solve_deadlock(self, new_messages)` (lines 1-94): set
`is_deadlocked`; return at once when not deadlocked OR already
`"waiting_for_giver"` (line 10-14); otherwise broadcast PROPOSE_WASTE, set
`_already_proposed` and move to `"proposing"` (lines 20-27) before the
`"idle"` / `"waiting_for_giver"` / `"proposing"` handlers run.  `MAXC` is
the module constant `MAX_CARRY_TIMEOUT` (50 in knowledge_percepts.py). -/
def solveDeadlock (d0 : DDrone) (msgs : List DMsg) (MAXC : Int) :
    DDrone × List DOut :=
  if deadlockCheck d0 = false ∨ d0.deadlockStatus = "waiting_for_giver" then
    ({ d0 with isDeadlocked := deadlockCheck d0 }, [])
  else
    solveDeadlockBody
      { d0 with isDeadlocked := deadlockCheck d0, alreadyProposed := true,
                deadlockStatus := "proposing" }
      msgs MAXC [.broadcast .PROPOSE_WASTE (headColor d0) d0.pos]

/-- C6: no execution of `_solve_deadlock` ever sends an ACCEPT_WASTE
message.  The claim says an `idle` agent receiving PROPOSE_WASTE replies
ACCEPT_WASTE to the closest proposer and becomes `waiting_for_giver`; in
the source the line-27 assignment `deadlock_status = "proposing"` runs
unconditionally before the line-30 `if deadlock_status == "idle"` check, so
the idle handler is dead code: an idle drone either returns at line 14 (not
deadlocked) or is already `"proposing"` when the check runs. -/
theorem solve_deadlock_never_sends_accept_waste (d : DDrone)
    (msgs : List DMsg) (MAXC : Int) :
    ((solveDeadlock d msgs MAXC).2.all
      fun e => decide (doutPerf e ≠ .ACCEPT_WASTE)) = true := by
  unfold solveDeadlock
  split
  · simp
  · unfold solveDeadlockBody
    rw [if_neg (by simp)]
    unfold solveDeadlockRest
    rw [if_neg (by simp)]
    unfold solveDeadlockProposing
    rw [if_pos rfl]
    split
    · simp [doutPerf]
    · split
      · simp [doutPerf]
      · simp [doutPerf]

/-- A drone stuck in `"waiting_for_giver"` with its wait timeout at 5. -/
def waitingDrone : DDrone :=
  { uid := 3, pos := (1, 1), zoneType := 0, inventory := [⟨4, 0⟩],
    carryTimeout := 0, deadlockStatus := "waiting_for_giver",
    isDeadlocked := true, alreadyProposed := true, waitTimeout := 5,
    transferTarget := none, targetPos := none }

/-- C7: the claim says a `waiting_for_giver` agent decrements its wait
timeout every tick and reverts to `idle` on expiry, so no agent stalls
permanently.  In the source the line 10-14 guard returns immediately
whenever `deadlock_status == "waiting_for_giver"`, so the decrement at line
67 is unreachable: `waitingDrone` is a fixed point of `_solve_deadlock` —
its timeout never decrements and its status never reverts, for any number
of ticks. -/
theorem solve_deadlock_waiting_for_giver_stalls :
    solveDeadlock waitingDrone [] 50 = (waitingDrone, []) ∧
    ∀ n : Nat,
      (fun s => (solveDeadlock s [] 50).1)^[n] waitingDrone = waitingDrone := by
  constructor
  · decide
  · intro n
    induction n with
    | zero => rfl
    | succ k ih =>
      rw [Function.iterate_succ_apply]
      have hstep : (solveDeadlock waitingDrone [] 50).1 = waitingDrone := by
        decide
      rw [hstep, ih]

/-
========================  Donor-broker protocol (C8)  ========================
`donor_logic` (src/donor_logic.py, lines 4-285).
-/

/-- A donor-protocol message: performative, sender id (`get_exp()`),
addressee, and the position payload every donor message carries. -/
structure DonMsg where
  perf : Performative
  exp : Nat
  dest : Nat
  content : Pos
deriving DecidableEq, Repr

/-- Another entry of `model.agents` as read by `find_potential_donors`
(donor_logic.py lines 248-260). -/
structure DonorPeer where
  uid : Nat
  isDrone : Bool
  inventory : List Waste
  pos : Pos
deriving DecidableEq, Repr

/-- The drone state read and written by `donor_logic`: `drone.pos`,
`drone.unique_id`, `drone.zone_type` and the knowledge fields `inventory`,
`donor_status`, `carried_waste_timeout`, `target_waste_position`;
`others` models `drone.model.agents` minus the drone itself. -/
structure DonorDrone where
  uid : Nat
  pos : Pos
  zoneType : Nat
  inventory : List Waste
  donorStatus : String
  carriedWasteTimeout : Nat
  targetWastePosition : Option Pos
  others : List DonorPeer
deriving DecidableEq, Repr

/-- `accept_donor_request(drone, request)` (donor_logic.py lines 154-198):
send ACCEPT_DONATION with the drone's position to the requester, assert the
inventory is exactly one item of the drone's own color (`AssertionError`
modelled as `none`; in Python the ACCEPT is already out when the assert
fires), pop that item — the donated waste is removed from the inventory and
never placed on the grid — send INFORM_WASTE_POS_ADD_REF with the hand-off
position, and return to `"idle"`. -/
def acceptDonorRequest (d : DonorDrone) (request : DonMsg) :
    Option (DonorDrone × List DonMsg) :=
  if d.inventory.length = 1 ∧
      d.inventory.head?.map Waste.color = some d.zoneType then
    some ({ d with inventory := d.inventory.drop 1, donorStatus := "idle" },
      [⟨.ACCEPT_DONATION, d.uid, request.exp, d.pos⟩,
       ⟨.INFORM_WASTE_POS_ADD_REF, d.uid, request.exp, d.pos⟩])
  else none

/-- `reject_donor_request(drone, request)` (donor_logic.py lines 201-216). -/
def rejectDonorRequest (d : DonorDrone) (request : DonMsg) : DonMsg :=
  ⟨.REJECT_DONATION, d.uid, request.exp, d.pos⟩

/-- `process_donor_requests(drone, requests)` (donor_logic.py lines
116-143): sort the requests by Manhattan distance (Python's stable
`sorted`), enter `"donating"` mode, accept the closest request and reject
all the others. -/
def processDonorRequests (d : DonorDrone) (requests : List DonMsg) :
    Option (DonorDrone × List DonMsg) :=
  match sortByKey (fun m => manhattan m.content d.pos) requests with
  | [] => some (d, [])
  | closest :: rest =>
    match acceptDonorRequest { d with donorStatus := "donating" } closest with
    | some (d2, out) =>
      some (d2, out ++ rest.map (rejectDonorRequest d2))
    | none => none

/-- `handle_idle_status(drone, new_messages)` (donor_logic.py lines
92-113): with donation requests present and exactly one carried item of the
drone's own color, process them; otherwise do nothing. -/
def handleIdleStatus (d : DonorDrone) (msgs : List DonMsg) :
    Option (DonorDrone × List DonMsg) :=
  if (msgs.filter fun m => m.perf = .REQUEST_DONATION) ≠ [] ∧
      d.inventory.length = 1 ∧
      d.inventory.head?.map Waste.color = some d.zoneType then
    processDonorRequests d (msgs.filter fun m => m.perf = .REQUEST_DONATION)
  else some (d, [])

/-- `find_potential_donors(drone)` (donor_logic.py lines 248-260): other
`Drone` agents holding exactly one item of this drone's own color. -/
def findPotentialDonors (d : DonorDrone) : List DonorPeer :=
  d.others.filter fun a =>
    decide (a.uid ≠ d.uid) && a.isDrone &&
    decide (a.inventory.length = 1) &&
    decide (a.inventory.head?.map Waste.color = some d.zoneType)

/-- `request_donor(drone, potential_donors)` (donor_logic.py lines
263-284): become `"requesting"` and send REQUEST_DONATION to the closest
potential donor (Python `min`; raises on an empty list, which callers
guard — modelled by sending nothing). -/
def requestDonor (d : DonorDrone) (potentials : List DonorPeer) :
    DonorDrone × List DonMsg :=
  match pyMin (fun a => manhattan a.pos d.pos) potentials with
  | some closest =>
    ({ d with donorStatus := "requesting" },
     [⟨.REQUEST_DONATION, d.uid, closest.uid, d.pos⟩])
  | none => ({ d with donorStatus := "requesting" }, [])

/-- The INFORM_WASTE_POS_ADD_REF loop of `handle_requesting_status`
(donor_logic.py lines 53-59): each received waste location sets
`target_waste_position` and returns `donor_status` to `"idle"`. -/
def donorInformUpdate (d : DonorDrone) (msgs : List DonMsg) : DonorDrone :=
  (msgs.filter fun m => m.perf = .INFORM_WASTE_POS_ADD_REF).foldl
    (fun s m => { s with targetWastePosition := some m.content,
                         donorStatus := "idle" }) d

/-- `handle_requesting_status(drone, new_messages)` (donor_logic.py lines
26-71): ACCEPT_DONATION responses are only examined
(`process_donor_response` picks the closest donor and logs it, changing no
state); each INFORM_WASTE_POS_ADD_REF sets the target and returns the
status to `"idle"`; rejections are handled — by searching for another
potential donor — only when no acceptance and no waste location arrived. -/
def handleRequestingStatus (d : DonorDrone) (msgs : List DonMsg) :
    DonorDrone × List DonMsg :=
  if (msgs.filter fun m => m.perf = .REJECT_DONATION) ≠ [] ∧
      (msgs.filter fun m => m.perf = .ACCEPT_DONATION) = [] ∧
      (msgs.filter fun m => m.perf = .INFORM_WASTE_POS_ADD_REF) = [] then
    match findPotentialDonors (donorInformUpdate d msgs) with
    | [] => (donorInformUpdate d msgs, [])
    | p :: ps => requestDonor (donorInformUpdate d msgs) (p :: ps)
  else (donorInformUpdate d msgs, [])

/-- The number of copies of waste `u` in an inventory. -/
def wasteCount (u : Nat) (inv : List Waste) : Nat :=
  (inv.filter fun w => w.uid = u).length

/-- An idle donor holding the single waste 5 (color 0) at (4,4). -/
def donorCtr : DonorDrone :=
  { uid := 1, pos := (4, 4), zoneType := 0, inventory := [⟨5, 0⟩],
    donorStatus := "idle", carriedWasteTimeout := 0,
    targetWastePosition := none, others := [] }

/-- A requesting zone-0 drone with an empty inventory at the origin. -/
def requesterCtr : DonorDrone :=
  { uid := 2, pos := (0, 0), zoneType := 0, inventory := [],
    donorStatus := "requesting", carriedWasteTimeout := 0,
    targetWastePosition := none, others := [] }

/-- The donation request from `requesterCtr` to `donorCtr`. -/
def donorCtrReq : DonMsg := ⟨.REQUEST_DONATION, 2, 1, (0, 0)⟩

/-- C8 counterexample: the claim says the donated item is neither duplicated
nor lost.  Running the exchange (donor accepts, requester processes the
ACCEPT_DONATION and INFORM_WASTE_POS_ADD_REF it is sent), waste 5 is popped
from the donor's inventory, never placed on the grid (`accept_donor_request`
performs no grid operation — donor_logic.py line 174: "simulating dropping
without placing in environment"), and never enters the requester's
inventory, which only records the reported position: the total count of
copies of waste 5 across both inventories drops from 1 to 0 — the item is
lost. -/
theorem donor_exchange_item_lost_counterexample :
    wasteCount 5 donorCtr.inventory +
      wasteCount 5 requesterCtr.inventory = 1 ∧
    ((handleIdleStatus donorCtr [donorCtrReq]).map fun res =>
      wasteCount 5 res.1.inventory +
        wasteCount 5 (handleRequestingStatus requesterCtr res.2).1.inventory)
      = some 0 ∧
    ((handleIdleStatus donorCtr [donorCtrReq]).map fun res =>
      (handleRequestingStatus requesterCtr res.2).1.targetWastePosition)
      = some (some (4, 4)) := by
  refine ⟨by decide, by decide, by decide⟩

/-- C8 (amended): after a successful donor exchange the donor's inventory no
longer contains the donated item (its inventory empties) and the requester's
`target_waste_position` is set to the hand-off position reported in the
donor's INFORM_WASTE_POS_ADD_REF message, with the requester's status
returned to `"idle"` and its inventory untouched; the donor sends exactly
one ACCEPT_DONATION and one INFORM_WASTE_POS_ADD_REF (to the closest
requester) and a REJECT_DONATION to every other requester.  The donated
item is not duplicated — but it is not conserved either: it is removed
outright, not placed on the grid (see
`donor_exchange_item_lost_counterexample`). -/
theorem donor_handoff_amended (d : DonorDrone) (msgs : List DonMsg)
    (q : DonMsg) (qs : List DonMsg) (w : Waste)
    (r : DonorDrone) (rmsgs : List DonMsg) (im : DonMsg)
    (hreq : (msgs.filter fun m => m.perf = .REQUEST_DONATION) = q :: qs)
    (hinv : d.inventory = [w]) (hcol : w.color = d.zoneType)
    (hrinf : (rmsgs.filter fun m => m.perf = .INFORM_WASTE_POS_ADD_REF)
      = [im]) :
    ∃ d1 out chosen rest,
      sortByKey (fun m => manhattan m.content d.pos) (q :: qs) =
        chosen :: rest ∧
      handleIdleStatus d msgs = some (d1, out) ∧
      d1.inventory = [] ∧
      w ∉ d1.inventory ∧
      chosen ∈ q :: qs ∧
      (∀ x ∈ q :: qs,
        manhattan chosen.content d.pos ≤ manhattan x.content d.pos) ∧
      out = ⟨.ACCEPT_DONATION, d.uid, chosen.exp, d.pos⟩ ::
        ⟨.INFORM_WASTE_POS_ADD_REF, d.uid, chosen.exp, d.pos⟩ ::
        rest.map (fun m => ⟨.REJECT_DONATION, d.uid, m.exp, d.pos⟩) ∧
      (∀ x ∈ q :: qs, x ≠ chosen →
        (⟨.REJECT_DONATION, d.uid, x.exp, d.pos⟩ : DonMsg) ∈ out) ∧
      (handleRequestingStatus r rmsgs).1.targetWastePosition =
        some im.content ∧
      (handleRequestingStatus r rmsgs).1.donorStatus = "idle" ∧
      (handleRequestingStatus r rmsgs).1.inventory = r.inventory := by
  obtain ⟨chosen, rest, hs⟩ :
      ∃ c t, sortByKey (fun m => manhattan m.content d.pos) (q :: qs) =
        c :: t := by
    cases hne : sortByKey (fun m => manhattan m.content d.pos) (q :: qs) with
    | nil => exact absurd hne (sortByKey_ne_nil _ _ _)
    | cons c t => exact ⟨c, t, rfl⟩
  have hacc : acceptDonorRequest { d with donorStatus := "donating" }
      chosen = some
      ({ d with donorStatus := "idle", inventory := d.inventory.drop 1 },
       [⟨.ACCEPT_DONATION, d.uid, chosen.exp, d.pos⟩,
        ⟨.INFORM_WASTE_POS_ADD_REF, d.uid, chosen.exp, d.pos⟩]) := by
    unfold acceptDonorRequest
    rw [if_pos (by simp [hinv, hcol])]
  have hmain : handleIdleStatus d msgs = some
      ({ d with donorStatus := "idle", inventory := d.inventory.drop 1 },
       ⟨.ACCEPT_DONATION, d.uid, chosen.exp, d.pos⟩ ::
        ⟨.INFORM_WASTE_POS_ADD_REF, d.uid, chosen.exp, d.pos⟩ ::
        rest.map (fun m => ⟨.REJECT_DONATION, d.uid, m.exp, d.pos⟩)) := by
    unfold handleIdleStatus
    rw [if_pos (by rw [hreq, hinv]; exact ⟨by simp, by simp, by simp [hcol]⟩)]
    unfold processDonorRequests
    rw [hreq, hs]
    simp only []
    rw [hacc]
    simp [rejectDonorRequest]
  have hreqmem : ∀ x ∈ q :: qs, x = chosen ∨ x ∈ rest := by
    intro x hx
    have : x ∈ sortByKey (fun m => manhattan m.content d.pos) (q :: qs) :=
      (mem_sortByKey _ _ _).mpr hx
    rw [hs] at this
    exact List.mem_cons.mp this
  have hrside : handleRequestingStatus r rmsgs =
      ({ r with targetWastePosition := some im.content,
                donorStatus := "idle" }, []) := by
    unfold handleRequestingStatus
    rw [if_neg (by simp [hrinf])]
    unfold donorInformUpdate
    rw [hrinf]
    simp [List.foldl]
  refine ⟨_, _, chosen, rest, hs, hmain, by simp [hinv], by simp [hinv],
    ?_, ?_, rfl, ?_, ?_, ?_, ?_⟩
  · have := sortByKey_head_min (fun m => manhattan m.content d.pos)
      (q :: qs) chosen rest hs
    exact (mem_sortByKey _ _ _).mp (hs ▸ List.mem_cons_self _ _)
  · exact sortByKey_head_min (fun m => manhattan m.content d.pos)
      (q :: qs) chosen rest hs
  · intro x hx hne
    rcases hreqmem x hx with h1 | h1
    · exact absurd h1 hne
    · exact List.mem_cons_of_mem _ (List.mem_cons_of_mem _
        (List.mem_map_of_mem _ h1))
  · rw [hrside]
  · rw [hrside]
  · rw [hrside]

/-- The INFORM_WASTE_POS_ADD_REF the donor sends in the witness scenario. -/
def donorWitInform : DonMsg := ⟨.INFORM_WASTE_POS_ADD_REF, 1, 2, (4, 4)⟩

/-- Concrete witness for `donor_handoff_amended`: `donorCtr` accepts the
single request `donorCtrReq`; `requesterCtr` processes the resulting
INFORM_WASTE_POS_ADD_REF. -/
theorem donor_handoff_amended_witness :
    (([donorCtrReq].filter fun m => m.perf = .REQUEST_DONATION) =
      donorCtrReq :: []) ∧
    donorCtr.inventory = [⟨5, 0⟩] ∧
    (⟨5, 0⟩ : Waste).color = donorCtr.zoneType ∧
    (([donorWitInform].filter fun m => m.perf = .INFORM_WASTE_POS_ADD_REF) =
      [donorWitInform]) ∧
    ∃ d1 out chosen rest,
      sortByKey (fun m => manhattan m.content donorCtr.pos)
        (donorCtrReq :: []) = chosen :: rest ∧
      handleIdleStatus donorCtr [donorCtrReq] = some (d1, out) ∧
      d1.inventory = [] ∧
      (⟨5, 0⟩ : Waste) ∉ d1.inventory ∧
      chosen ∈ donorCtrReq :: [] ∧
      (∀ x ∈ donorCtrReq :: [],
        manhattan chosen.content donorCtr.pos ≤
          manhattan x.content donorCtr.pos) ∧
      out = ⟨.ACCEPT_DONATION, donorCtr.uid, chosen.exp, donorCtr.pos⟩ ::
        ⟨.INFORM_WASTE_POS_ADD_REF, donorCtr.uid, chosen.exp,
          donorCtr.pos⟩ ::
        rest.map (fun m => ⟨.REJECT_DONATION, donorCtr.uid, m.exp,
          donorCtr.pos⟩) ∧
      (∀ x ∈ donorCtrReq :: [], x ≠ chosen →
        (⟨.REJECT_DONATION, donorCtr.uid, x.exp, donorCtr.pos⟩ : DonMsg) ∈
          out) ∧
      (handleRequestingStatus requesterCtr
        [donorWitInform]).1.targetWastePosition = some donorWitInform.content ∧
      (handleRequestingStatus requesterCtr [donorWitInform]).1.donorStatus =
        "idle" ∧
      (handleRequestingStatus requesterCtr [donorWitInform]).1.inventory =
        requesterCtr.inventory :=
  ⟨by decide, by decide, by decide, by decide,
   donor_handoff_amended donorCtr [donorCtrReq] donorCtrReq [] ⟨5, 0⟩
     requesterCtr [donorWitInform] donorWitInform (by decide) (by decide)
     (by decide) (by decide)⟩
